import Mathlib

/-!
Shallow embedding of
`src/blink/renderer/modules/ai/on_device_translation/create_translator_client.cc`
(the asynchronous translator-creation orchestrator of the repository).

Pure helpers (`ConvertCreateTranslatorErrorToDebugString`, `RequiresUserActivation`)
are translated directly.  The stateful callbacks `OnResult` and
`OnGotAvailability` are embedded as functions from an explicit client state
(and an environment describing the surrounding execution context and the
observer's synchronous behaviour) to a record of observable effects plus the
successor state.  Parts of the client's base classes that are not in the
repository (the `AIContextObserver` resolver bookkeeping and its `Cleanup`)
are modelled from the spec where noted.
-/

namespace OnDeviceTranslation

/-- `mojom::blink::CreateTranslatorError`: the eleven provider/creation
failure kinds handled by `ConvertCreateTranslatorErrorToDebugString`. -/
inductive CreateTranslatorError where
  | kInvalidBinary
  | kInvalidFunctionPointer
  | kFailedToInitialize
  | kFailedToCreateTranslator
  | kAcceptLanguagesCheckFailed
  | kExceedsLanguagePackCountLimitation
  | kServiceCrashed
  | kDisallowedByPolicy
  | kExceedsServiceCountLimitation
  | kExceedsPendingTaskCountLimitation
  | kInvalidVersion
  deriving DecidableEq, Repr

/-- `mojom::blink::CanCreateTranslatorResult`: the availability-classification
values consumed by `RequiresUserActivation` and `OnGotAvailability`. -/
inductive CanCreateTranslatorResult where
  | kReadily
  | kAfterDownloadLibraryNotReady
  | kAfterDownloadLanguagePackNotReady
  | kAfterDownloadLibraryAndLanguagePackNotReady
  | kAfterDownloadTranslatorCreationRequired
  | kNoNotSupportedLanguage
  | kNoAcceptLanguagesCheckFailed
  | kNoExceedsLanguagePackCountLimitation
  | kNoServiceCrashed
  | kNoDisallowedByPolicy
  | kNoExceedsServiceCountLimitation
  deriving DecidableEq, Repr

/-- `kExceptionMessageUnableToCreateTranslator` (create_translator_client.cc,
lines 21-22). -/
def kExceptionMessageUnableToCreateTranslator : String :=
  "Unable to create translator for the given source and target language."

/-- `kLinkToDocument` (create_translator_client.cc, lines 23-26). -/
def kLinkToDocument : String :=
  "See https://developer.chrome.com/docs/ai/translator-api?#supported-languages for more details."

/-- Modelled from the spec: `kExceptionMessageUserActivationRequired` is
declared in `ai_utils.h`, which is not part of the repository sources; the
spec only calls it "a \x22not allowed\x22 error" message, so the exact text is a
fixed placeholder constant. -/
def kExceptionMessageUserActivationRequired : String :=
  "Requires a user gesture."

/-- Modelled from the spec: `kNormalizedDownloadProgressMax` is declared in
`ai_utils.h`, which is not part of the repository sources; the spec describes
it as "a fixed normalized ceiling" MAX.  The concrete value is irrelevant to
every claim; 0x10000 is used. -/
def kNormalizedDownloadProgressMax : Nat := 65536

/-- `ConvertCreateTranslatorErrorToDebugString` (create_translator_client.cc,
lines 28-57): the default-less switch mapping each error kind to its debug
string; two cases append `kLinkToDocument` via `base::StrCat`. -/
def ConvertCreateTranslatorErrorToDebugString : CreateTranslatorError → String
  | .kInvalidBinary => "Failed to load the translation library."
  | .kInvalidFunctionPointer => "The translation library is not compatible."
  | .kFailedToInitialize => "Failed to initialize the translation library."
  | .kFailedToCreateTranslator =>
      "The translation library failed to create a translator."
  | .kAcceptLanguagesCheckFailed =>
      "The preferred languages check for Translator API failed. "
        ++ kLinkToDocument
  | .kExceedsLanguagePackCountLimitation =>
      "The Translator API language pack count exceeded the limitation. "
        ++ kLinkToDocument
  | .kServiceCrashed => "The translation service crashed."
  | .kDisallowedByPolicy => "The translation is disallowed by policy."
  | .kExceedsServiceCountLimitation =>
      "The translation service count exceeded the limitation."
  | .kExceedsPendingTaskCountLimitation =>
      "Too many Translator API requests are queued."
  | .kInvalidVersion => "The translation library version is invalid."

/-- `RequiresUserActivation` (create_translator_client.cc, lines 59-77):
the default-less switch classifying availability results. -/
def RequiresUserActivation : CanCreateTranslatorResult → Bool
  | .kAfterDownloadLibraryNotReady => true
  | .kAfterDownloadLanguagePackNotReady => true
  | .kAfterDownloadLibraryAndLanguagePackNotReady => true
  | .kAfterDownloadTranslatorCreationRequired => true
  | .kReadily => false
  | .kNoNotSupportedLanguage => false
  | .kNoAcceptLanguagesCheckFailed => false
  | .kNoExceedsLanguagePackCountLimitation => false
  | .kNoServiceCrashed => false
  | .kNoDisallowedByPolicy => false
  | .kNoExceedsServiceCountLimitation => false

/-- The handle passed to `Resolver.resolve` on success: the `Translator`
constructed at create_translator_client.cc lines 151-154 carries the request's
source and target language strings (the mojo remote, task runner and abort
signal are opaque to every claim and omitted). -/
structure Translator where
  sourceLanguage : String
  targetLanguage : String
  deriving DecidableEq, Repr

/-- `mojom::blink::CreateTranslatorResultPtr`: a union that is either a
translator remote (`is_translator()`) or an error (`is_error()`); the `CHECK`
at line 121 makes these the only two cases. -/
inductive CreateTranslatorResult where
  | translator
  | error (e : CreateTranslatorError)
  deriving DecidableEq, Repr

/-- An observable call on the Resolver: `Resolve` with a created handle, or a
rejection carrying a message and a DOMException error name. -/
inductive ResolverCall where
  | resolve (t : Translator)
  | reject (message : String) (errorName : String)
  deriving DecidableEq, Repr

/-- State of a `CreateTranslatorClient`: whether `GetResolver()` still returns
a live resolver, whether a `monitor_` was registered, whether the mojo
`receiver_` is bound, and the two language strings captured at construction
(create_translator_client.cc lines 80-98). -/
structure CreateTranslatorClient where
  resolver : Bool
  monitor : Bool
  receiverBound : Bool
  sourceLanguage : String
  targetLanguage : String
  deriving DecidableEq, Repr

/-- Modelled from the spec: `AIContextObserver::Cleanup` is not part of the
repository sources.  Per spec section 4.3 step 7 it releases the channel
endpoint and the progress monitor, and per the section 3 invariant the
orchestrator thereafter treats the Resolver as gone (weak/null). -/
def CreateTranslatorClient.Cleanup (st : CreateTranslatorClient) :
    CreateTranslatorClient :=
  { st with resolver := false, monitor := false, receiverBound := false }

/-- Synchronous behaviour of the external progress observer during one
`OnResult` call: whether delivering the synthesized start event
`(0, MAX)` (resp. the completion event `(MAX, MAX)`) triggers cancellation as
a side effect, making `GetResolver()` return null afterwards (the checks at
create_translator_client.cc lines 136-139 and 145-148). -/
structure ObserverBehavior where
  abortOnStartEvent : Bool
  abortOnCompletionEvent : Bool
  deriving DecidableEq, Repr

/-- Observable effects of one `OnResult` call: console messages added to the
execution context, progress events delivered to the monitor's observer,
calls made on the Resolver, and whether `Cleanup` ran on return. -/
structure OnResultEffects where
  consoleMessages : List String
  progressEvents : List (Nat × Nat)
  resolverCalls : List ResolverCall
  cleanupRan : Bool
  deriving DecidableEq, Repr

/-- `CreateTranslatorClient::OnResult` (create_translator_client.cc,
lines 108-155), as an effects-producing step function.

The `RunOnDestruction` guard at lines 110-112 runs `Cleanup` on every return
path, so the successor state is always `st.Cleanup` and `cleanupRan` is always
true.  If `GetResolver()` is already null the function returns with no other
effect (lines 114-118).  An error result logs the debug string as a console
warning and rejects with the fixed message and `NotSupportedError`
(lines 120-130).  A translator result with a monitor first delivers the
synthesized `(0, MAX)` event, re-checks the resolver, then delivers
`(MAX, MAX)` and re-checks again (lines 132-149); only if the resolver
survived both deliveries is it resolved with a `Translator` carrying the
stored language strings (lines 151-154). -/
def OnResult (st : CreateTranslatorClient) (result : CreateTranslatorResult)
    (obs : ObserverBehavior) : OnResultEffects × CreateTranslatorClient :=
  if st.resolver = false then
    ({ consoleMessages := [], progressEvents := [], resolverCalls := [],
       cleanupRan := true }, st.Cleanup)
  else
    match result with
    | .error e =>
        ({ consoleMessages := [ConvertCreateTranslatorErrorToDebugString e],
           progressEvents := [],
           resolverCalls := [.reject kExceptionMessageUnableToCreateTranslator
             "NotSupportedError"],
           cleanupRan := true }, st.Cleanup)
    | .translator =>
        if st.monitor then
          if obs.abortOnStartEvent then
            ({ consoleMessages := [],
               progressEvents := [(0, kNormalizedDownloadProgressMax)],
               resolverCalls := [], cleanupRan := true }, st.Cleanup)
          else if obs.abortOnCompletionEvent then
            ({ consoleMessages := [],
               progressEvents := [(0, kNormalizedDownloadProgressMax),
                 (kNormalizedDownloadProgressMax,
                   kNormalizedDownloadProgressMax)],
               resolverCalls := [], cleanupRan := true }, st.Cleanup)
          else
            ({ consoleMessages := [],
               progressEvents := [(0, kNormalizedDownloadProgressMax),
                 (kNormalizedDownloadProgressMax,
                   kNormalizedDownloadProgressMax)],
               resolverCalls := [.resolve
                 ⟨st.sourceLanguage, st.targetLanguage⟩],
               cleanupRan := true }, st.Cleanup)
        else
          ({ consoleMessages := [], progressEvents := [],
             resolverCalls := [.resolve
               ⟨st.sourceLanguage, st.targetLanguage⟩],
             cleanupRan := true }, st.Cleanup)

/-- The execution environment consulted by `OnGotAvailability`:
whether the `TranslationAPIV1` runtime feature is enabled, whether the
context is a service-worker global scope (the `CHECK` at line 166 restricts
contexts to a window or a service-worker scope), and whether a transient user
activation is available for `LocalFrame::ConsumeTransientUserActivation` to
consume. -/
structure ExecutionConfig where
  translationAPIV1Enabled : Bool
  isServiceWorkerGlobalScope : Bool
  hasTransientUserActivation : Bool
  deriving DecidableEq, Repr

/-- A `CreateTranslator` message sent to the `TranslationManager` remote
(create_translator_client.cc, lines 189-195): the two language codes and
whether a progress-observer remote was attached. -/
structure CreateRequestMessage where
  sourceLanguage : String
  targetLanguage : String
  hasProgressObserver : Bool
  deriving DecidableEq, Repr

/-- Observable effects of one `OnGotAvailability` call. -/
structure OnGotAvailabilityEffects where
  activationConsumeAttempted : Bool
  activationConsumed : Bool
  resolverCalls : List ResolverCall
  channelBound : Bool
  createRequests : List CreateRequestMessage
  deriving DecidableEq, Repr

/-- `CreateTranslatorClient::OnGotAvailability` (create_translator_client.cc,
lines 157-196), as an effects-producing step function.

The guard at lines 168-171 short-circuits: `ConsumeTransientUserActivation`
is invoked only when the `TranslationAPIV1` feature is enabled, the context
is not a service-worker scope, and `RequiresUserActivation(result)` holds.
If the consume fails the resolver is rejected with `NotAllowedError` and the
function returns before binding anything (lines 172-176).  Otherwise the
receiver is bound and exactly one `CreateTranslator` request is sent, with a
progress-observer remote attached iff a monitor exists (lines 177-195). -/
def OnGotAvailability (cfg : ExecutionConfig) (st : CreateTranslatorClient)
    (result : CanCreateTranslatorResult) :
    OnGotAvailabilityEffects × CreateTranslatorClient :=
  let gate := cfg.translationAPIV1Enabled
    && !cfg.isServiceWorkerGlobalScope
    && RequiresUserActivation result
  if gate && !cfg.hasTransientUserActivation then
    ({ activationConsumeAttempted := true, activationConsumed := false,
       resolverCalls := [.reject kExceptionMessageUserActivationRequired
         "NotAllowedError"],
       channelBound := false, createRequests := [] }, st)
  else
    ({ activationConsumeAttempted := gate,
       activationConsumed := gate && cfg.hasTransientUserActivation,
       resolverCalls := [],
       channelBound := true,
       createRequests := [⟨st.sourceLanguage, st.targetLanguage, st.monitor⟩] },
     { st with receiverBound := true })

/-- Feed a sequence of provider result messages through `OnResult`,
threading the client state and collecting each call's effects. -/
def processResults (st : CreateTranslatorClient)
    (msgs : List (CreateTranslatorResult × ObserverBehavior)) :
    List OnResultEffects × CreateTranslatorClient :=
  match msgs with
  | [] => ([], st)
  | (r, obs) :: rest =>
      let step := OnResult st r obs
      let after := processResults step.2 rest
      (step.1 :: after.1, after.2)

/-- Total number of Resolver calls over an entire request lifecycle: the
availability callback runs first; provider result messages can only arrive on
the per-creation channel, so they are delivered (in order) only when
`OnGotAvailability` actually bound it and sent the create request. -/
def lifecycleResolverCallCount (cfg : ExecutionConfig)
    (st : CreateTranslatorClient) (avail : CanCreateTranslatorResult)
    (msgs : List (CreateTranslatorResult × ObserverBehavior)) : Nat :=
  if (OnGotAvailability cfg st avail).1.channelBound then
    (OnGotAvailability cfg st avail).1.resolverCalls.length
      + ((processResults (OnGotAvailability cfg st avail).2 msgs).1.map
          (fun eff => eff.resolverCalls.length)).sum
  else
    (OnGotAvailability cfg st avail).1.resolverCalls.length

/-- A sample client state used by concrete witnesses: live resolver, a
registered monitor, languages "en" and "fr". -/
def testClient : CreateTranslatorClient :=
  { resolver := true, monitor := true, receiverBound := false,
    sourceLanguage := "en", targetLanguage := "fr" }

/-!
Theorems settling the claims.
-/

set_option maxRecDepth 20000 in
/-- C7: the debug-message mapping is a pure total function over all eleven
error kinds (totality is enforced by the default-less match), returning a
non-empty string for each; the message carries the fixed documentation link
as a suffix exactly for `kAcceptLanguagesCheckFailed` and
`kExceedsLanguagePackCountLimitation`. -/
theorem debugString_total_nonempty_link (e : CreateTranslatorError) :
    ConvertCreateTranslatorErrorToDebugString e ≠ "" ∧
      (kLinkToDocument.data <:+
          (ConvertCreateTranslatorErrorToDebugString e).data
        ↔ (e = .kAcceptLanguagesCheckFailed ∨
            e = .kExceedsLanguagePackCountLimitation)) := by
  cases e <;> exact ⟨by decide, by decide⟩

/-- C8: the availability classification is pure and total over all eleven
`CanCreateTranslatorResult` variants; exactly the four download-still-needed
variants require user activation, while the ready variant and every
blocked/unsupported variant do not. -/
theorem requiresUserActivation_classification (r : CanCreateTranslatorResult) :
    RequiresUserActivation r = true ↔
      (r = .kAfterDownloadLibraryNotReady ∨
       r = .kAfterDownloadLanguagePackNotReady ∨
       r = .kAfterDownloadLibraryAndLanguagePackNotReady ∨
       r = .kAfterDownloadTranslatorCreationRequired) := by
  cases r <;> decide

/-- C10: when the resolver is already absent, `OnResult` performs cleanup and
nothing else observable: no console message (even for a failure result), no
progress event, and no resolve or reject call. -/
theorem onResult_after_abort_only_cleanup (st : CreateTranslatorClient)
    (result : CreateTranslatorResult) (obs : ObserverBehavior)
    (h : st.resolver = false) :
    (OnResult st result obs).1 =
      { consoleMessages := [], progressEvents := [], resolverCalls := [],
        cleanupRan := true } := by
  simp [OnResult, h]

/-- Witness for C10 at a concrete aborted state receiving a failure result. -/
theorem onResult_after_abort_only_cleanup_witness :
    (OnResult { testClient with resolver := false }
        (.error .kServiceCrashed) ⟨false, false⟩).1 =
      { consoleMessages := [], progressEvents := [], resolverCalls := [],
        cleanupRan := true } :=
  onResult_after_abort_only_cleanup _ _ _ rfl

/-- C6: on a failure result with the resolver still present, `OnResult` logs
exactly the kind's debug string to the console and rejects with the single
fixed user-facing message and `NotSupportedError` — the same rejection for
every `CreateTranslatorError`, so the kind is never exposed to the caller. -/
theorem onResult_failure_logs_and_rejects_fixed (st : CreateTranslatorClient)
    (e : CreateTranslatorError) (obs : ObserverBehavior)
    (h : st.resolver = true) :
    (OnResult st (.error e) obs).1.consoleMessages =
        [ConvertCreateTranslatorErrorToDebugString e] ∧
      (OnResult st (.error e) obs).1.resolverCalls =
        [.reject kExceptionMessageUnableToCreateTranslator
          "NotSupportedError"] := by
  simp [OnResult, h]

/-- Witness for C6 at a concrete live state receiving `kInvalidBinary`. -/
theorem onResult_failure_logs_and_rejects_fixed_witness :
    (OnResult testClient (.error .kInvalidBinary) ⟨false, false⟩).1.consoleMessages =
        [ConvertCreateTranslatorErrorToDebugString .kInvalidBinary] ∧
      (OnResult testClient (.error .kInvalidBinary) ⟨false, false⟩).1.resolverCalls =
        [.reject kExceptionMessageUnableToCreateTranslator
          "NotSupportedError"] :=
  onResult_failure_logs_and_rejects_fixed _ _ _ rfl

/-- C4: on a successful result with a registered monitor and no cancellation
during delivery, the observer sees exactly the synthesized start event
`(0, MAX)` followed by the synthesized completion event `(MAX, MAX)` and
nothing after it, and the resolver is resolved with a handle carrying the
request's source and target language strings. -/
theorem onResult_success_progress_framing (st : CreateTranslatorClient)
    (obs : ObserverBehavior) (h : st.resolver = true) (hm : st.monitor = true)
    (h0 : obs.abortOnStartEvent = false)
    (h1 : obs.abortOnCompletionEvent = false) :
    (OnResult st .translator obs).1.progressEvents =
        [(0, kNormalizedDownloadProgressMax),
         (kNormalizedDownloadProgressMax, kNormalizedDownloadProgressMax)] ∧
      (OnResult st .translator obs).1.resolverCalls =
        [.resolve ⟨st.sourceLanguage, st.targetLanguage⟩] := by
  simp [OnResult, h, hm, h0, h1]

/-- Witness for C4 at a concrete live state with a monitor and a quiescent
observer. -/
theorem onResult_success_progress_framing_witness :
    (OnResult testClient .translator ⟨false, false⟩).1.progressEvents =
        [(0, kNormalizedDownloadProgressMax),
         (kNormalizedDownloadProgressMax, kNormalizedDownloadProgressMax)] ∧
      (OnResult testClient .translator ⟨false, false⟩).1.resolverCalls =
        [.resolve ⟨"en", "fr"⟩] :=
  onResult_success_progress_framing testClient ⟨false, false⟩ rfl rfl rfl rfl

/-- C5: if cancellation fires synchronously inside the observer's handling of
the synthesized start event, the completion event is never emitted, neither
resolve nor reject is ever called, and cleanup still runs. -/
theorem onResult_abort_during_start_event (st : CreateTranslatorClient)
    (obs : ObserverBehavior) (h : st.resolver = true) (hm : st.monitor = true)
    (ha : obs.abortOnStartEvent = true) :
    (OnResult st .translator obs).1.progressEvents =
        [(0, kNormalizedDownloadProgressMax)] ∧
      (OnResult st .translator obs).1.resolverCalls = [] ∧
      (OnResult st .translator obs).1.cleanupRan = true := by
  simp [OnResult, h, hm, ha]

/-- Witness for C5 at a concrete live state whose observer cancels from
inside the start-event callback. -/
theorem onResult_abort_during_start_event_witness :
    (OnResult testClient .translator ⟨true, false⟩).1.progressEvents =
        [(0, kNormalizedDownloadProgressMax)] ∧
      (OnResult testClient .translator ⟨true, false⟩).1.resolverCalls = [] ∧
      (OnResult testClient .translator ⟨true, false⟩).1.cleanupRan = true :=
  onResult_abort_during_start_event testClient ⟨true, false⟩ rfl rfl rfl

/-- C9: when the `TranslationAPIV1` runtime feature is disabled, the
user-activation check is skipped entirely for every availability result:
no activation consumption is attempted, no missing-activation rejection
occurs, and the channel is bound and exactly one create-request sent even
for download-required availability. -/
theorem availability_feature_disabled_bypasses_gate (cfg : ExecutionConfig)
    (st : CreateTranslatorClient) (result : CanCreateTranslatorResult)
    (h : cfg.translationAPIV1Enabled = false) :
    (OnGotAvailability cfg st result).1.activationConsumeAttempted = false ∧
      (OnGotAvailability cfg st result).1.activationConsumed = false ∧
      (OnGotAvailability cfg st result).1.resolverCalls = [] ∧
      (OnGotAvailability cfg st result).1.channelBound = true ∧
      (OnGotAvailability cfg st result).1.createRequests =
        [⟨st.sourceLanguage, st.targetLanguage, st.monitor⟩] := by
  simp [OnGotAvailability, h]

/-- Witness for C9: feature disabled, window context, no activation present,
download-then-create required — the request is still sent. -/
theorem availability_feature_disabled_bypasses_gate_witness :
    (OnGotAvailability ⟨false, false, false⟩ testClient
        .kAfterDownloadTranslatorCreationRequired).1.activationConsumeAttempted
        = false ∧
      (OnGotAvailability ⟨false, false, false⟩ testClient
        .kAfterDownloadTranslatorCreationRequired).1.activationConsumed
        = false ∧
      (OnGotAvailability ⟨false, false, false⟩ testClient
        .kAfterDownloadTranslatorCreationRequired).1.resolverCalls = [] ∧
      (OnGotAvailability ⟨false, false, false⟩ testClient
        .kAfterDownloadTranslatorCreationRequired).1.channelBound = true ∧
      (OnGotAvailability ⟨false, false, false⟩ testClient
        .kAfterDownloadTranslatorCreationRequired).1.createRequests =
        [⟨"en", "fr", true⟩] :=
  availability_feature_disabled_bypasses_gate ⟨false, false, false⟩
    testClient .kAfterDownloadTranslatorCreationRequired rfl

/-- C2: with the `TranslationAPIV1` feature enabled and a window (non
service-worker) context, a download-requiring availability result with no
consumable transient activation is rejected with the not-allowed error before
any channel is bound and no create-request is ever sent; with activation
present the channel is bound and exactly one create-request is sent. -/
theorem availability_activation_gating (cfg : ExecutionConfig)
    (st : CreateTranslatorClient) (result : CanCreateTranslatorResult)
    (hv : cfg.translationAPIV1Enabled = true)
    (hw : cfg.isServiceWorkerGlobalScope = false)
    (hr : RequiresUserActivation result = true) :
    (cfg.hasTransientUserActivation = false →
        (OnGotAvailability cfg st result).1.resolverCalls =
            [.reject kExceptionMessageUserActivationRequired
              "NotAllowedError"] ∧
          (OnGotAvailability cfg st result).1.channelBound = false ∧
          (OnGotAvailability cfg st result).1.createRequests = []) ∧
      (cfg.hasTransientUserActivation = true →
        (OnGotAvailability cfg st result).1.resolverCalls = [] ∧
          (OnGotAvailability cfg st result).1.channelBound = true ∧
          (OnGotAvailability cfg st result).1.createRequests.length = 1) := by
  constructor <;> intro ha <;> simp [OnGotAvailability, hv, hw, hr, ha]

/-- Witness for C2: both halves at download-then-create availability in an
enabled window context, without and with a transient activation. -/
theorem availability_activation_gating_witness :
    ((OnGotAvailability ⟨true, false, false⟩ testClient
          .kAfterDownloadTranslatorCreationRequired).1.createRequests = [] ∧
        (OnGotAvailability ⟨true, false, false⟩ testClient
          .kAfterDownloadTranslatorCreationRequired).1.channelBound = false) ∧
      ((OnGotAvailability ⟨true, false, true⟩ testClient
          .kAfterDownloadTranslatorCreationRequired).1.createRequests.length
          = 1 ∧
        (OnGotAvailability ⟨true, false, true⟩ testClient
          .kAfterDownloadTranslatorCreationRequired).1.channelBound = true) :=
  ⟨⟨((availability_activation_gating ⟨true, false, false⟩ testClient
        .kAfterDownloadTranslatorCreationRequired rfl rfl rfl).1 rfl).2.2,
    ((availability_activation_gating ⟨true, false, false⟩ testClient
        .kAfterDownloadTranslatorCreationRequired rfl rfl rfl).1 rfl).2.1⟩,
   ⟨((availability_activation_gating ⟨true, false, true⟩ testClient
        .kAfterDownloadTranslatorCreationRequired rfl rfl rfl).2 rfl).2.2,
    ((availability_activation_gating ⟨true, false, true⟩ testClient
        .kAfterDownloadTranslatorCreationRequired rfl rfl rfl).2 rfl).2.1⟩⟩

/-- C3 counterexample: with availability `kNoNotSupportedLanguage` (the
BlockedUnsupportedLanguage case) for the request `{"en", "xx"}`, the
orchestrator DOES send a create-request — `OnGotAvailability` binds the
channel and issues the request for every blocked variant, contradicting the
claim that no create-request is ever sent. -/
theorem blockedUnsupportedLanguage_counterexample :
    ¬ ((OnGotAvailability ⟨true, false, false⟩
        { resolver := true, monitor := false, receiverBound := false,
          sourceLanguage := "en", targetLanguage := "xx" }
        .kNoNotSupportedLanguage).1.createRequests = []) := by
  decide

/-- C3 amended: on `kNoNotSupportedLanguage` the availability step never
rejects (blocked variants require no activation) and sends exactly one
create-request; the fixed "unable to create" rejection is then produced by
`OnResult` when the provider reports the creation failure. -/
theorem blockedUnsupportedLanguage_amended (cfg : ExecutionConfig)
    (st : CreateTranslatorClient) (e : CreateTranslatorError)
    (obs : ObserverBehavior) (h : st.resolver = true) :
    (OnGotAvailability cfg st .kNoNotSupportedLanguage).1.resolverCalls
        = [] ∧
      (OnGotAvailability cfg st .kNoNotSupportedLanguage).1.channelBound
        = true ∧
      (OnGotAvailability cfg st
        .kNoNotSupportedLanguage).1.createRequests.length = 1 ∧
      (OnResult (OnGotAvailability cfg st .kNoNotSupportedLanguage).2
          (.error e) obs).1.resolverCalls =
        [.reject kExceptionMessageUnableToCreateTranslator
          "NotSupportedError"] := by
  refine ⟨?_, ?_, ?_, ?_⟩ <;>
    simp [OnGotAvailability, OnResult, RequiresUserActivation, h]

/-- Witness for the amended C3 at the request `{"en", "xx"}` with the
provider failing with `kFailedToCreateTranslator`. -/
theorem blockedUnsupportedLanguage_amended_witness :
    (OnGotAvailability ⟨true, false, false⟩
        { resolver := true, monitor := false, receiverBound := false,
          sourceLanguage := "en", targetLanguage := "xx" }
        .kNoNotSupportedLanguage).1.resolverCalls = [] ∧
      (OnGotAvailability ⟨true, false, false⟩
        { resolver := true, monitor := false, receiverBound := false,
          sourceLanguage := "en", targetLanguage := "xx" }
        .kNoNotSupportedLanguage).1.channelBound = true ∧
      (OnGotAvailability ⟨true, false, false⟩
        { resolver := true, monitor := false, receiverBound := false,
          sourceLanguage := "en", targetLanguage := "xx" }
        .kNoNotSupportedLanguage).1.createRequests.length = 1 ∧
      (OnResult (OnGotAvailability ⟨true, false, false⟩
          { resolver := true, monitor := false, receiverBound := false,
            sourceLanguage := "en", targetLanguage := "xx" }
          .kNoNotSupportedLanguage).2
          (.error .kFailedToCreateTranslator) ⟨false, false⟩).1.resolverCalls =
        [.reject kExceptionMessageUnableToCreateTranslator
          "NotSupportedError"] :=
  blockedUnsupportedLanguage_amended ⟨true, false, false⟩
    { resolver := true, monitor := false, receiverBound := false,
      sourceLanguage := "en", targetLanguage := "xx" }
    .kFailedToCreateTranslator ⟨false, false⟩ rfl

/-- After any `OnResult` call the successor state is the cleaned-up client:
the `RunOnDestruction` guard runs `Cleanup` on every return path. -/
theorem onResult_state_cleanup (st : CreateTranslatorClient)
    (r : CreateTranslatorResult) (obs : ObserverBehavior) :
    (OnResult st r obs).2 = st.Cleanup := by
  rcases st with ⟨res, mon, rb, s, t⟩
  rcases obs with ⟨a0, a1⟩
  cases res <;> cases mon <;> cases a0 <;> cases a1 <;> cases r <;> rfl

/-- A single `OnResult` call makes at most one Resolver call. -/
theorem onResult_calls_le_one (st : CreateTranslatorClient)
    (r : CreateTranslatorResult) (obs : ObserverBehavior) :
    (OnResult st r obs).1.resolverCalls.length ≤ 1 := by
  rcases st with ⟨res, mon, rb, s, t⟩
  rcases obs with ⟨a0, a1⟩
  cases res <;> cases mon <;> cases a0 <;> cases a1 <;> cases r <;>
    simp [OnResult]

/-- `OnResult` makes no Resolver call when the resolver is absent. -/
theorem onResult_calls_absent (st : CreateTranslatorClient)
    (r : CreateTranslatorResult) (obs : ObserverBehavior)
    (h : st.resolver = false) :
    (OnResult st r obs).1.resolverCalls = [] := by
  simp [OnResult, h]

/-- From a state whose resolver is absent, an arbitrary sequence of provider
result messages produces zero Resolver calls in total. -/
theorem processResults_absent_no_calls (st : CreateTranslatorClient)
    (msgs : List (CreateTranslatorResult × ObserverBehavior))
    (h : st.resolver = false) :
    ((processResults st msgs).1.map
      (fun eff => eff.resolverCalls.length)).sum = 0 := by
  induction msgs generalizing st with
  | nil => simp [processResults]
  | cons m rest ih =>
      obtain ⟨r, obs⟩ := m
      have hstep : ((OnResult st r obs).2).resolver = false := by
        rw [onResult_state_cleanup]; rfl
      simp [processResults, onResult_calls_absent st r obs h, ih _ hstep]

/-- An arbitrary sequence of provider result messages produces at most one
Resolver call in total: the first `OnResult` call leaves the resolver absent
(cleanup), and every later call is then silent. -/
theorem processResults_calls_le_one (st : CreateTranslatorClient)
    (msgs : List (CreateTranslatorResult × ObserverBehavior)) :
    ((processResults st msgs).1.map
      (fun eff => eff.resolverCalls.length)).sum ≤ 1 := by
  cases msgs with
  | nil => simp [processResults]
  | cons m rest =>
      obtain ⟨r, obs⟩ := m
      have hdead : ((processResults (OnResult st r obs).2 rest).1.map
          (fun eff => eff.resolverCalls.length)).sum = 0 :=
        processResults_absent_no_calls _ _
          (by rw [onResult_state_cleanup]; rfl)
      calc ((processResults st ((r, obs) :: rest)).1.map
            (fun eff => eff.resolverCalls.length)).sum
          = (OnResult st r obs).1.resolverCalls.length
            + ((processResults (OnResult st r obs).2 rest).1.map
                (fun eff => eff.resolverCalls.length)).sum := by
            simp [processResults]
        _ ≤ 1 := by rw [hdead]; simpa using onResult_calls_le_one st r obs

/-- `OnGotAvailability` either binds the channel with no Resolver call, or
rejects exactly once without binding the channel. -/
theorem onGotAvailability_cases (cfg : ExecutionConfig)
    (st : CreateTranslatorClient) (avail : CanCreateTranslatorResult) :
    ((OnGotAvailability cfg st avail).1.channelBound = true ∧
        (OnGotAvailability cfg st avail).1.resolverCalls = []) ∨
      ((OnGotAvailability cfg st avail).1.channelBound = false ∧
        (OnGotAvailability cfg st avail).1.resolverCalls.length = 1) := by
  unfold OnGotAvailability
  dsimp only
  split
  · right; simp
  · left; simp

/-- C1: over every request lifecycle — any execution environment, any initial
client state, any availability result, and any number of provider result
messages and synchronous cancellation signals — the Resolver receives at most
one resolve or reject call in total: after the first call the orchestrator
treats the Resolver as absent and performs no further Resolver calls. -/
theorem lifecycle_resolver_at_most_once (cfg : ExecutionConfig)
    (st : CreateTranslatorClient) (avail : CanCreateTranslatorResult)
    (msgs : List (CreateTranslatorResult × ObserverBehavior)) :
    lifecycleResolverCallCount cfg st avail msgs ≤ 1 := by
  unfold lifecycleResolverCallCount
  rcases onGotAvailability_cases cfg st avail with ⟨hb, hc⟩ | ⟨hb, hc⟩
  · rw [if_pos hb, hc]
    simpa using processResults_calls_le_one (OnGotAvailability cfg st avail).2
      msgs
  · rw [if_neg (by simp [hb]), hc]

end OnDeviceTranslation
